import Mathlib

/-!
Verification of `src/frontend/app/providers.tsx` (the `Providers` composition
and the `JoinGameButton` form component) against its natural-language
specification.

The submit handler `onSubmit` is embedded as a pure function producing the
trace of observable effects (state setters, the metadata lookup call,
navigation, console logs), parameterised by the form field's value and by the
outcome of the external `getGameMetadata` collaborator. View state
(`isLoading`, `errors`) is recovered by interpreting the trace.
-/

namespace GamesSite

/-! ## String normalization (JS `.trim().toUpperCase()` on the form value) -/

/-- Remove whitespace from both ends of a character list: first from the
front (`dropWhile`), then from the back (`rdropWhile`). -/
def trimChars (l : List Char) : List Char :=
  List.rdropWhile Char.isWhitespace (l.dropWhile Char.isWhitespace)

/-- JS `String.prototype.trim`: remove whitespace from both ends.
Whitespace is modelled as the ASCII whitespace set (`Char.isWhitespace`). -/
def jsTrim (s : String) : String :=
  ⟨trimChars s.data⟩

/-- JS `String.prototype.toUpperCase`, modelled on basic latin letters
(`Char.toUpper`). -/
def jsToUpperCase (s : String) : String :=
  ⟨s.data.map Char.toUpper⟩

/-- The normalization applied to the form value in `onSubmit`:
`formData.get("GameID")?.toString().trim().toUpperCase()`. -/
def normalizeGameID (s : String) : String :=
  jsToUpperCase (jsTrim s)

/-- Modelled from the spec: `validateGameID` lives in `lib/gameFunctions`,
which is not among the provided sources; the spec's contract is
"returns true iff input is a 5-letter alphabetic string". -/
def validateGameID (s : String) : Bool :=
  s.length == 5 && s.data.all Char.isAlpha

/-! ## The submit handler as an effect trace -/

/-- The metadata returned by the external `getGameMetadata` collaborator;
the handler only reads its `game_type` field. -/
structure GameMetadata where
  game_type : String
  deriving DecidableEq, Repr

/-- Outcome of the awaited `getGameMetadata` promise: it either resolves
(possibly to a falsy `null`/`undefined`, modelled by `none`) or rejects. -/
inductive LookupOutcome where
  | resolves (m : Option GameMetadata)
  | rejects
  deriving DecidableEq, Repr

/-- Observable effects performed by the `onSubmit` handler, in order. -/
inductive Event where
  | preventDefault
  | logGameID (id : String)
  | setErrors (e : List (String × String))
  | setLoading (b : Bool)
  | callGetGameMetadata (id : String)
  | logMetadata
  | pushRoute (path : String)
  | logError
  deriving DecidableEq, Repr

/-- The normalized form value:
`formData.get("GameID")?.toString().trim().toUpperCase() ?? ""`. -/
def normalizedField (formValue : Option String) : String :=
  (formValue.map normalizeGameID).getD ""

/-- The effects of the `try` block's body after the `await`: the
`gameMetadata` log, then either the `router.push` call (plus the `catch`
branch when that push throws), the falsy-result `setErrors`, or the
rejection's `catch` branch. -/
def lookupTail (lookup : LookupOutcome) (pushThrows : Bool) (gameID : String) :
    List Event :=
  match lookup with
  | .resolves (some md) =>
      Event.logMetadata ::
        Event.pushRoute ("/" ++ md.game_type ++ "/" ++ gameID) ::
        (if pushThrows then
          [Event.logError, Event.setErrors [("GameID", "Invalid game ID")]]
        else [])
  | .resolves none =>
      [Event.logMetadata, Event.setErrors [("GameID", "Invalid game ID")]]
  | .rejects =>
      [Event.logError, Event.setErrors [("GameID", "Invalid game ID")]]

/-- Shallow embedding of the `onSubmit` handler of `JoinGameButton`.
`formValue` is `formData.get("GameID")` (`none` when the field is absent),
`lookup` the behaviour of the awaited `getGameMetadata` call, and
`pushThrows` whether `router.push` throws synchronously when invoked.
The result is the ordered trace of effects the handler performs: suppress
the default submission, log the normalized ID, early-return with the shape
error when validation fails, else set loading, clear errors, await the
lookup, run the `try`/`catch` tail, and run the `finally` cleanup. -/
def onSubmit (formValue : Option String) (lookup : LookupOutcome)
    (pushThrows : Bool) : List Event :=
  let gameID := normalizedField formValue
  Event.preventDefault :: Event.logGameID gameID ::
    (if validateGameID gameID then
      Event.setLoading true :: Event.setErrors [] ::
        Event.callGetGameMetadata gameID ::
        (lookupTail lookup pushThrows gameID ++ [Event.setLoading false])
    else
      [Event.setErrors [("GameID", "Game IDs need to be a 5 letter string.")]])

/-- The component's view state: the two `useState` cells of `JoinGameButton`. -/
structure HandlerState where
  isLoading : Bool
  errors : List (String × String)
  deriving DecidableEq, Repr

/-- React `useState` setter semantics: `setErrors` and `setIsLoading`
replace the stored value wholesale; other effects do not touch view state. -/
def applyEvent (s : HandlerState) : Event → HandlerState
  | .setErrors e => { s with errors := e }
  | .setLoading b => { s with isLoading := b }
  | _ => s

/-- Run a trace of effects over the view state. -/
def runTrace (s : HandlerState) (t : List Event) : HandlerState :=
  t.foldl applyEvent s

/-- Initial state of `JoinGameButton`: not loading, empty error map. -/
def initState : HandlerState := ⟨false, []⟩

/-- The navigation calls (`router.push` paths) occurring in a trace. -/
def pushEvents (t : List Event) : List String :=
  t.filterMap (fun e =>
    match e with
    | .pushRoute p => some p
    | _ => none)

/-- Index of the first occurrence of an event in a trace. -/
def idxOf (e : Event) (t : List Event) : Nat :=
  t.findIdx (fun x => x == e)

/-! ## The `Providers` composition -/

/-- A rendered element tree: the four providers of `providers.tsx`, JSX
sibling juxtaposition, the wrapped child content (of type `α`), and the
empty tree (a self-closing element's child list). -/
inductive UITree (α : Type) where
  | heroUIProvider (child : UITree α)
  | toastProvider (child : UITree α)
  | userProvider (child : UITree α)
  | gameProvider (child : UITree α)
  | sibling (a b : UITree α)
  | content (a : α)
  | empty
  deriving DecidableEq, Repr

/-- The `Providers` component: `HeroUIProvider` containing the self-closing
`ToastProvider` followed by `UserProvider` wrapping `GameProvider` wrapping
`children`. -/
def Providers (children : UITree α) : UITree α :=
  .heroUIProvider
    (.sibling (.toastProvider .empty)
      (.userProvider (.gameProvider children)))

/-- The composition as the spec describes it: four nested scopes in order
theming → toast → user → game → children, each provider wrapping the next
(in particular the toast scope enclosing user, game and child content). -/
def ProvidersSpecClaimed (children : UITree α) : UITree α :=
  .heroUIProvider (.toastProvider (.userProvider (.gameProvider children)))

/-- The four provider scopes, for talking about which scopes enclose a node. -/
inductive ScopeName where
  | theming
  | toast
  | user
  | game
  deriving DecidableEq, Repr

/-- The list of provider scopes enclosing the first occurrence of content
`a` in the tree, outermost first (`none` when `a` does not occur). -/
def findScopes [DecidableEq α] (a : α) : UITree α → Option (List ScopeName)
  | .content b => if b = a then some [] else none
  | .empty => none
  | .sibling x y => (findScopes a x).orElse (fun _ => findScopes a y)
  | .heroUIProvider t => (findScopes a t).map (ScopeName.theming :: ·)
  | .toastProvider t => (findScopes a t).map (ScopeName.toast :: ·)
  | .userProvider t => (findScopes a t).map (ScopeName.user :: ·)
  | .gameProvider t => (findScopes a t).map (ScopeName.game :: ·)

/-- Whether a toast surface is mounted somewhere in the tree. -/
def hasToast : UITree α → Bool
  | .toastProvider _ => true
  | .heroUIProvider t => hasToast t
  | .userProvider t => hasToast t
  | .gameProvider t => hasToast t
  | .sibling x y => hasToast x || hasToast y
  | .content _ => false
  | .empty => false

/-! ## The rendered form surface of `JoinGameButton` -/

/-- The props of the rendered form: the `Input` and `Button` of
`JoinGameButton` with the values the component passes them. -/
structure JoinGameView where
  inputLabel : String
  inputPlaceholder : String
  inputDisabled : Bool
  buttonLabel : String
  buttonIsLoading : Bool
  validationErrors : List (String × String)
  deriving DecidableEq, Repr

/-- The render of `JoinGameButton` as a function of its view state:
`Input` gets `isDisabled={isLoading}`, `Button` gets `isLoading={isLoading}`,
`Form` gets `validationErrors={errors}`. -/
def renderJoinGame (isLoading : Bool) (errors : List (String × String)) :
    JoinGameView :=
  { inputLabel := "GameID"
    inputPlaceholder := "Enter the 5 character GameID"
    inputDisabled := isLoading
    buttonLabel := "Join a game!"
    buttonIsLoading := isLoading
    validationErrors := errors }

/-- Modelled from the spec: the HeroUI `Button` collaborator renders a
button with `isLoading` set as disabled (the spec's rendered-surface
contract: "both disabled while loading"). -/
def buttonDisabled (v : JoinGameView) : Bool :=
  v.buttonIsLoading

/-! ## Character-level facts about `Char.toUpper` and `Char.isWhitespace` -/

theorem char_toNat_ofNat_valid {n : Nat} (h : n < 55296) :
    (Char.ofNat n).toNat = n := by
  have hv : n.isValidChar := Or.inl h
  rw [Char.ofNat, dif_pos hv]
  rfl

theorem char_toNat_toUpper (c : Char) :
    (Char.toUpper c).toNat
      = if 97 ≤ c.toNat ∧ c.toNat ≤ 122 then c.toNat - 32 else c.toNat := by
  simp only [Char.toUpper, ge_iff_le]
  split_ifs with h
  · exact char_toNat_ofNat_valid (by omega)
  · rfl

theorem char_toUpper_eq_self {c : Char}
    (h : ¬(97 ≤ c.toNat ∧ c.toNat ≤ 122)) : Char.toUpper c = c := by
  simp only [Char.toUpper, ge_iff_le]
  rw [if_neg h]

theorem char_toUpper_toUpper (c : Char) :
    Char.toUpper (Char.toUpper c) = Char.toUpper c := by
  by_cases h : 97 ≤ c.toNat ∧ c.toNat ≤ 122
  · apply char_toUpper_eq_self
    rw [char_toNat_toUpper, if_pos h]
    omega
  · rw [char_toUpper_eq_self h]
    exact char_toUpper_eq_self h

theorem char_isWhitespace_eq_false {c : Char} (h9 : c.toNat ≠ 9)
    (h10 : c.toNat ≠ 10) (h13 : c.toNat ≠ 13) (h32 : c.toNat ≠ 32) :
    c.isWhitespace = false := by
  have hs : c ≠ ' ' := fun he => h32 (by rw [he]; decide)
  have ht : c ≠ '\t' := fun he => h9 (by rw [he]; decide)
  have hr : c ≠ '\r' := fun he => h13 (by rw [he]; decide)
  have hn : c ≠ '\n' := fun he => h10 (by rw [he]; decide)
  simp [Char.isWhitespace, hs, ht, hr, hn]

theorem char_isWhitespace_toUpper (c : Char) :
    (Char.toUpper c).isWhitespace = c.isWhitespace := by
  by_cases h : 97 ≤ c.toNat ∧ c.toNat ≤ 122
  · have h1 : (Char.toUpper c).toNat = c.toNat - 32 := by
      rw [char_toNat_toUpper, if_pos h]
    have e1 : (Char.toUpper c).isWhitespace = false :=
      char_isWhitespace_eq_false (by rw [h1]; omega) (by rw [h1]; omega)
        (by rw [h1]; omega) (by rw [h1]; omega)
    have e2 : c.isWhitespace = false :=
      char_isWhitespace_eq_false (by omega) (by omega) (by omega) (by omega)
    rw [e1, e2]
  · rw [char_toUpper_eq_self h]

theorem isWhitespace_comp_toUpper :
    (Char.isWhitespace ∘ Char.toUpper) = Char.isWhitespace := by
  funext c
  exact char_isWhitespace_toUpper c

/-! ## Idempotence of trimming and upper-casing -/

theorem dropWhile_trimChars (l : List Char) :
    (trimChars l).dropWhile Char.isWhitespace = trimChars l := by
  cases hx : trimChars l with
  | nil => rfl
  | cons x xs =>
    obtain ⟨t, ht⟩ :=
      List.rdropWhile_prefix Char.isWhitespace
        (l.dropWhile Char.isWhitespace)
    have ht' : x :: (xs ++ t) = l.dropWhile Char.isWhitespace := by
      rw [← List.cons_append, ← hx]
      exact ht
    have hw := List.head?_dropWhile_not Char.isWhitespace l
    rw [← ht'] at hw
    simp only [List.head?_cons] at hw
    simp [List.dropWhile_cons, hw]

theorem trimChars_trimChars (l : List Char) :
    trimChars (trimChars l) = trimChars l := by
  calc trimChars (trimChars l)
      = List.rdropWhile Char.isWhitespace
          ((trimChars l).dropWhile Char.isWhitespace) := rfl
    _ = List.rdropWhile Char.isWhitespace (trimChars l) := by
        rw [dropWhile_trimChars]
    _ = trimChars l :=
        List.rdropWhile_idempotent Char.isWhitespace
          (l.dropWhile Char.isWhitespace)

theorem dropWhile_map_toUpper (l : List Char) :
    (l.map Char.toUpper).dropWhile Char.isWhitespace
      = (l.dropWhile Char.isWhitespace).map Char.toUpper := by
  rw [List.dropWhile_map, isWhitespace_comp_toUpper]

theorem rdropWhile_map_toUpper (l : List Char) :
    List.rdropWhile Char.isWhitespace (l.map Char.toUpper)
      = (List.rdropWhile Char.isWhitespace l).map Char.toUpper := by
  unfold List.rdropWhile
  rw [← List.map_reverse, dropWhile_map_toUpper, ← List.map_reverse]

theorem trimChars_map_toUpper (l : List Char) :
    trimChars (l.map Char.toUpper) = (trimChars l).map Char.toUpper := by
  unfold trimChars
  rw [dropWhile_map_toUpper, rdropWhile_map_toUpper]

theorem map_toUpper_idem (l : List Char) :
    (l.map Char.toUpper).map Char.toUpper = l.map Char.toUpper := by
  rw [List.map_map]
  congr 1
  funext c
  exact char_toUpper_toUpper c

theorem normalizeGameID_idem (s : String) :
    normalizeGameID (normalizeGameID s) = normalizeGameID s := by
  unfold normalizeGameID jsToUpperCase jsTrim
  exact congrArg String.mk (by
    show (trimChars ((trimChars s.data).map Char.toUpper)).map Char.toUpper
        = (trimChars s.data).map Char.toUpper
    rw [trimChars_map_toUpper, trimChars_trimChars, map_toUpper_idem])

/-! ## The shape of a validated submission's trace -/

theorem onSubmit_valid_shape (v : Option String) (l : LookupOutcome) (pt : Bool)
    (h : validateGameID (normalizedField v) = true) :
    onSubmit v l pt
      = [Event.preventDefault, Event.logGameID (normalizedField v),
          Event.setLoading true, Event.setErrors [],
          Event.callGetGameMetadata (normalizedField v)]
        ++ (lookupTail l pt (normalizedField v) ++ [Event.setLoading false]) := by
  simp [onSubmit, h]

/-! ## The claims -/

/-- C1: for every submission whose normalized input fails `validateGameID`,
the handler sets the error map to exactly
`{GameID: "Game IDs need to be a 5 letter string."}` (from any prior view
state), never calls `getGameMetadata`, and never sets the loading flag to
true. -/
theorem c1_invalid_shape_error_no_lookup (v : Option String)
    (l : LookupOutcome) (pt : Bool)
    (h : validateGameID (normalizedField v) = false) :
    (∀ s0, (runTrace s0 (onSubmit v l pt)).errors
        = [("GameID", "Game IDs need to be a 5 letter string.")])
    ∧ (∀ g, Event.callGetGameMetadata g ∉ onSubmit v l pt)
    ∧ Event.setLoading true ∉ onSubmit v l pt := by
  refine ⟨?_, ?_, ?_⟩ <;> simp [onSubmit, h, runTrace, applyEvent]

theorem c1_witness :
    validateGameID (normalizedField (some "abc")) = false
    ∧ ((∀ s0, (runTrace s0 (onSubmit (some "abc") .rejects false)).errors
          = [("GameID", "Game IDs need to be a 5 letter string.")])
      ∧ (∀ g, Event.callGetGameMetadata g ∉ onSubmit (some "abc") .rejects false)
      ∧ Event.setLoading true ∉ onSubmit (some "abc") .rejects false) :=
  ⟨by decide, c1_invalid_shape_error_no_lookup (some "abc") .rejects false
    (by decide)⟩

/-- C2: for every submission whose normalized input passes validation and
whose lookup resolves to a truthy metadata object, the handler navigates
exactly once, to `/{game_type}/{gameID}` with `gameID` the normalized input,
and the loading flag is false after the handler completes. -/
theorem c2_success_single_navigation (s : String) (md : GameMetadata)
    (h : validateGameID (normalizeGameID s) = true) :
    pushEvents (onSubmit (some s) (.resolves (some md)) false)
      = ["/" ++ md.game_type ++ "/" ++ normalizeGameID s]
    ∧ ∀ s0, (runTrace s0
        (onSubmit (some s) (.resolves (some md)) false)).isLoading = false := by
  refine ⟨?_, ?_⟩ <;>
    simp [onSubmit, normalizedField, h, lookupTail, runTrace, applyEvent,
      pushEvents]

theorem c2_witness :
    validateGameID (normalizeGameID "abcde") = true
    ∧ (pushEvents (onSubmit (some "abcde")
          (.resolves (some ⟨"trivia"⟩)) false)
        = ["/" ++ GameMetadata.game_type ⟨"trivia"⟩ ++ "/"
            ++ normalizeGameID "abcde"]
      ∧ ∀ s0, (runTrace s0 (onSubmit (some "abcde")
          (.resolves (some ⟨"trivia"⟩)) false)).isLoading = false) :=
  ⟨by decide, c2_success_single_navigation "abcde" ⟨"trivia"⟩ (by decide)⟩

/-- C3: for every validated submission, a lookup resolving to a falsy result
and a lookup rejection both yield the error map
`{GameID: "Invalid game ID"}`, neither performs any navigation, and the two
failure kinds leave identical view state. -/
theorem c3_lookup_failures_generic_error (v : Option String) (pt pt2 : Bool)
    (h : validateGameID (normalizedField v) = true) :
    (∀ s0, (runTrace s0 (onSubmit v (.resolves none) pt)).errors
        = [("GameID", "Invalid game ID")])
    ∧ (∀ s0, (runTrace s0 (onSubmit v .rejects pt2)).errors
        = [("GameID", "Invalid game ID")])
    ∧ pushEvents (onSubmit v (.resolves none) pt) = []
    ∧ pushEvents (onSubmit v .rejects pt2) = []
    ∧ ∀ s0, runTrace s0 (onSubmit v (.resolves none) pt)
        = runTrace s0 (onSubmit v .rejects pt2) := by
  refine ⟨?_, ?_, ?_, ?_, ?_⟩ <;>
    simp [onSubmit, h, lookupTail, runTrace, applyEvent, pushEvents]

theorem c3_witness :
    validateGameID (normalizedField (some "ZZZZZ")) = true
    ∧ ((∀ s0, (runTrace s0 (onSubmit (some "ZZZZZ") (.resolves none) false)).errors
          = [("GameID", "Invalid game ID")])
      ∧ (∀ s0, (runTrace s0 (onSubmit (some "ZZZZZ") .rejects false)).errors
          = [("GameID", "Invalid game ID")])
      ∧ pushEvents (onSubmit (some "ZZZZZ") (.resolves none) false) = []
      ∧ pushEvents (onSubmit (some "ZZZZZ") .rejects false) = []
      ∧ ∀ s0, runTrace s0 (onSubmit (some "ZZZZZ") (.resolves none) false)
          = runTrace s0 (onSubmit (some "ZZZZZ") .rejects false)) :=
  ⟨by decide, c3_lookup_failures_generic_error (some "ZZZZZ") false false
    (by decide)⟩

/-- C4: for every validated submission, on every exit path (success, falsy
result, rejection, or a throwing push) the trace ends with the `finally`
cleanup `setIsLoading(false)`, and the loading flag is false afterwards. -/
theorem c4_loading_false_on_every_exit (v : Option String) (l : LookupOutcome)
    (pt : Bool) (h : validateGameID (normalizedField v) = true) :
    (onSubmit v l pt).getLast? = some (Event.setLoading false)
    ∧ ∀ s0, (runTrace s0 (onSubmit v l pt)).isLoading = false := by
  constructor
  · rw [onSubmit_valid_shape v l pt h, ← List.append_assoc,
      List.getLast?_concat]
  · intro s0
    cases l with
    | rejects => simp [onSubmit, h, lookupTail, runTrace, applyEvent]
    | resolves m =>
      cases m <;> cases pt <;>
        simp [onSubmit, h, lookupTail, runTrace, applyEvent]

theorem c4_witness :
    validateGameID (normalizedField (some "QQQQQ")) = true
    ∧ ((onSubmit (some "QQQQQ") .rejects false).getLast?
          = some (Event.setLoading false)
      ∧ ∀ s0, (runTrace s0 (onSubmit (some "QQQQQ") .rejects false)).isLoading
          = false) :=
  ⟨by decide, c4_loading_false_on_every_exit (some "QQQQQ") .rejects false
    (by decide)⟩

/-- C5 (counterexample): the claim that the four providers nest in order
theming → toast → user → game around the children is false of the code:
`ToastProvider` is a self-closing sibling, so the composition differs from
the claimed nesting and the toast scope does not enclose the content. -/
theorem c5_counterexample_toast_does_not_enclose :
    Providers (UITree.content 0) ≠ ProvidersSpecClaimed (UITree.content 0)
    ∧ findScopes 0 (Providers (UITree.content 0))
        ≠ some [ScopeName.theming, ScopeName.toast, ScopeName.user,
            ScopeName.game] := by
  decide

/-- C5 (amended): `Providers` wraps the children in the scopes
theming → user → game (in that nesting order), with the toast surface
mounted inside the theming scope as a childless sibling of the user scope
rather than enclosing it. -/
theorem c5_amended_composition {α : Type} (t : UITree α) :
    Providers t
      = UITree.heroUIProvider
          (UITree.sibling (UITree.toastProvider UITree.empty)
            (UITree.userProvider (UITree.gameProvider t)))
    ∧ findScopes 0 (Providers (UITree.content 0))
        = some [ScopeName.theming, ScopeName.user, ScopeName.game]
    ∧ hasToast (Providers t) = true :=
  ⟨rfl, by decide, rfl⟩

/-- C6 (counterexample): the claim that the error map is cleared before the
loading flag is set is false: in the trace of a validated submission the
`setLoading true` write precedes the `setErrors {}` write. -/
theorem c6_counterexample_loading_set_before_errors_cleared :
    ¬(idxOf (Event.setErrors [])
          (onSubmit (some "ABCDE") (.resolves none) false)
        < idxOf (Event.setLoading true)
          (onSubmit (some "ABCDE") (.resolves none) false)) := by
  decide

/-- C6 (amended): for every validated submission the handler performs, in
this order: set the loading flag to true, then clear the error map, then
invoke `getGameMetadata` with the normalized ID — both state writes happen
before the remote lookup is invoked. -/
theorem c6_amended_loading_then_clear_then_lookup (v : Option String)
    (l : LookupOutcome) (pt : Bool)
    (h : validateGameID (normalizedField v) = true) :
    ∃ rest, onSubmit v l pt
      = [Event.preventDefault, Event.logGameID (normalizedField v),
          Event.setLoading true, Event.setErrors [],
          Event.callGetGameMetadata (normalizedField v)] ++ rest :=
  ⟨lookupTail l pt (normalizedField v) ++ [Event.setLoading false],
    onSubmit_valid_shape v l pt h⟩

theorem c6_witness :
    validateGameID (normalizedField (some "ABCDE")) = true
    ∧ ∃ rest, onSubmit (some "ABCDE") .rejects false
        = [Event.preventDefault,
            Event.logGameID (normalizedField (some "ABCDE")),
            Event.setLoading true, Event.setErrors [],
            Event.callGetGameMetadata (normalizedField (some "ABCDE"))]
          ++ rest :=
  ⟨by decide, c6_amended_loading_then_clear_then_lookup (some "ABCDE")
    .rejects false (by decide)⟩

/-- C7: while a validated submission's lookup is in flight (after the five
events up to and including the `getGameMetadata` call) the loading flag is
true, after the handler completes it is false again, and the rendered input
and submit button are disabled exactly when the loading flag is true. -/
theorem c7_controls_disabled_while_loading (v : Option String)
    (l : LookupOutcome) (pt : Bool)
    (h : validateGameID (normalizedField v) = true) :
    (runTrace initState ((onSubmit v l pt).take 5)).isLoading = true
    ∧ (runTrace initState (onSubmit v l pt)).isLoading = false
    ∧ ∀ b e, (renderJoinGame b e).inputDisabled = b
        ∧ buttonDisabled (renderJoinGame b e) = b := by
  refine ⟨?_, ?_, fun b e => ⟨rfl, rfl⟩⟩
  · rw [onSubmit_valid_shape v l pt h]
    have ht : List.take 5
        ([Event.preventDefault, Event.logGameID (normalizedField v),
            Event.setLoading true, Event.setErrors [],
            Event.callGetGameMetadata (normalizedField v)]
          ++ (lookupTail l pt (normalizedField v) ++ [Event.setLoading false]))
        = [Event.preventDefault, Event.logGameID (normalizedField v),
            Event.setLoading true, Event.setErrors [],
            Event.callGetGameMetadata (normalizedField v)] :=
      List.take_left' rfl
    rw [ht]
    simp [runTrace, applyEvent, initState]
  · cases l with
    | rejects => simp [onSubmit, h, lookupTail, runTrace, applyEvent]
    | resolves m =>
      cases m <;> cases pt <;>
        simp [onSubmit, h, lookupTail, runTrace, applyEvent]

theorem c7_witness :
    validateGameID (normalizedField (some "ABCDE")) = true
    ∧ ((runTrace initState
          ((onSubmit (some "ABCDE") (.resolves none) false).take 5)).isLoading
        = true
      ∧ (runTrace initState
          (onSubmit (some "ABCDE") (.resolves none) false)).isLoading = false
      ∧ ∀ b e, (renderJoinGame b e).inputDisabled = b
          ∧ buttonDisabled (renderJoinGame b e) = b) :=
  ⟨by decide, c7_controls_disabled_while_loading (some "ABCDE")
    (.resolves none) false (by decide)⟩

/-- C8: every `setErrors` write replaces the error map wholesale, and as a
consequence the view state left by any submission is independent of the
error map contents it started from — no stale error survives a submission. -/
theorem c8_error_map_replaced_wholesale :
    (∀ s0 e, (applyEvent s0 (Event.setErrors e)).errors = e)
    ∧ ∀ v l pt b e0 e0',
        (runTrace ⟨b, e0⟩ (onSubmit v l pt)).errors
          = (runTrace ⟨b, e0'⟩ (onSubmit v l pt)).errors := by
  refine ⟨fun s0 e => rfl, fun v l pt b e0 e0' => ?_⟩
  by_cases h : validateGameID (normalizedField v) = true
  · cases l with
    | rejects => simp [onSubmit, h, lookupTail, runTrace, applyEvent]
    | resolves m =>
      cases m <;> cases pt <;>
        simp [onSubmit, h, lookupTail, runTrace, applyEvent]
  · simp [onSubmit, h, runTrace, applyEvent]

/-- C9: the input normalization (trim, then upper-case) is idempotent, and
the input `"abcde"` yields the effective lookup key `"ABCDE"`. -/
theorem c9_normalization_idempotent_and_abcde :
    (∀ s, normalizeGameID (normalizeGameID s) = normalizeGameID s)
    ∧ normalizeGameID "abcde" = "ABCDE" :=
  ⟨normalizeGameID_idem, by decide⟩

/-- C10: for a validated submission whose lookup resolves to truthy metadata
but whose `router.push` throws synchronously, the push is attempted and the
exception is caught by the same handler's catch branch, which sets the error
map to `{GameID: "Invalid game ID"}`; loading still ends false. -/
theorem c10_push_throw_caught_as_invalid (s : String) (md : GameMetadata)
    (h : validateGameID (normalizeGameID s) = true) :
    (∀ s0, (runTrace s0
        (onSubmit (some s) (.resolves (some md)) true)).errors
        = [("GameID", "Invalid game ID")])
    ∧ Event.pushRoute ("/" ++ md.game_type ++ "/" ++ normalizeGameID s)
        ∈ onSubmit (some s) (.resolves (some md)) true
    ∧ ∀ s0, (runTrace s0
        (onSubmit (some s) (.resolves (some md)) true)).isLoading = false := by
  refine ⟨?_, ?_, ?_⟩ <;>
    simp [onSubmit, normalizedField, h, lookupTail, runTrace, applyEvent]

theorem c10_witness :
    validateGameID (normalizeGameID "ABCDE") = true
    ∧ ((∀ s0, (runTrace s0 (onSubmit (some "ABCDE")
          (.resolves (some ⟨"trivia"⟩)) true)).errors
        = [("GameID", "Invalid game ID")])
      ∧ Event.pushRoute ("/" ++ GameMetadata.game_type ⟨"trivia"⟩ ++ "/"
            ++ normalizeGameID "ABCDE")
          ∈ onSubmit (some "ABCDE") (.resolves (some ⟨"trivia"⟩)) true
      ∧ ∀ s0, (runTrace s0 (onSubmit (some "ABCDE")
          (.resolves (some ⟨"trivia"⟩)) true)).isLoading = false) :=
  ⟨by decide, c10_push_throw_caught_as_invalid "ABCDE" ⟨"trivia"⟩ (by decide)⟩

end GamesSite
